import Mathlib

/-!
Verification of the PDF2Excel conversion backend.

The repository exposes one endpoint, `POST /api/convert`, in two variants:
the deployment-constrained handler in `src/api/index.ts` (4MB upload
ceiling, a scheduled-but-unwired 9-second abort around the AI call, a
dedicated multer error handler and an API-key pre-check) and the
development handler in `src/server.ts` (10MB ceiling, no deadline, no
multer error handler and no API-key pre-check).  Both are
embedded below as total functions from a request environment to the
response produced together with the number of outbound AI calls made.
External collaborators (multer, Express, the GenAI SDK, the XLSX library,
the JavaScript `JSON.parse` builtin) are modelled by their documented
behaviour at the granularity the handlers observe.
-/

namespace PDF2Excel

/-- One spreadsheet row: a sequence of string cells, as contracted by the
`responseSchema` sent to the AI (arrays of arrays of arrays of strings). -/
abbrev Row := List String

/-- One extracted table: a sequence of rows. -/
abbrev Table := List Row

/-- A workbook as the XLSX library observes it from this code: an ordered
sequence of named sheets, each sheet an array-of-arrays of cells
(`aoa_to_sheet` + `book_append_sheet`).  The binary `.xlsx` encoding is the
library's concern and is not modelled. -/
abbrev Workbook := List (String × List Row)

/-- The uploaded file as the handlers observe it (`req.file`): only its
size takes part in any branch of the pipeline. -/
structure UploadedFile where
  size : Nat
deriving DecidableEq, Repr

/-- Outcome of the single `genAI.models.generateContent` call once its
promise settles: it rejected with an error carrying a `name` and a
`message`, or it resolved to a response whose `.text` accessor is either
a string or absent.  The handler in `api/index.ts` schedules
`controller.abort()` at 9 seconds, but `controller.signal` is never
passed to `generateContent` (its `config` carries only
`responseMimeType` and `responseSchema`), so the abort cannot reject this
promise: the deadline produces no outcome of its own, and an error named
`AbortError` can arise here only if the SDK itself throws one. -/
inductive AIOutcome where
  | failure (name msg : String)
  | success (text : Option String)
deriving DecidableEq, Repr

/-- The per-request environment of `POST /api/convert`: the file carried in
the multipart field `pdf` (if any), whether the upload middleware raised a
`MulterError` other than `LIMIT_FILE_SIZE` (e.g. an unexpected field),
whether it raised a non-multer transport error, whether the environment
variable `GEMINI_API_KEY` is set to a non-empty string, what the AI call
settles to if it is issued, and whether that call takes longer than the
9-second budget of `api/index.ts` (so that the scheduled
`controller.abort()` fires before the call settles).  Because the abort
signal is not wired into the call, the handler keeps awaiting the promise
either way; `exceedsDeadline` records an observable fact of the
environment that the code then ignores. -/
structure ConvertRequest where
  file : Option UploadedFile
  otherMulterError : Option String
  transportError : Option String
  apiKeySet : Bool
  ai : AIOutcome
  exceedsDeadline : Bool
deriving DecidableEq, Repr

/-- What the handler sends back: a JSON error body
`res.status(s).json(...)` carrying one error message, a response produced
by the framework's default error handler (an error reached Express with no
route-level handler installed; Express answers with a non-JSON body and,
for errors carrying no status field such as multer's, status 500), or the
spreadsheet attachment built from the assembled workbook. -/
inductive Response where
  | json (status : Nat) (errMsg : String)
  | frameworkError (status : Nat)
  | excel (sheets : Workbook)
deriving DecidableEq, Repr

/-- The HTTP status of a response (a successful attachment is sent with
the default 200). -/
def statusOf : Response → Nat
  | .json s _ => s
  | .frameworkError s => s
  | .excel _ => 200

/-- Whether the response is a `res.json(...)` error body. -/
def isJsonResponse : Response → Bool
  | .json _ _ => true
  | _ => false

/-- Whether the response came from the framework's default error handler. -/
def isFrameworkResponse : Response → Bool
  | .frameworkError _ => true
  | _ => false

/-! ## JSON values and parsing

Both handlers run `JSON.parse(result.text || "\x7b\x7d")` on the AI reply.
`JSON.parse` is the JavaScript builtin; it is modelled here by an
executable recursive-descent parser over the JSON grammar.  Numeric
literals are kept as their raw lexeme (no claim computes with numbers; the
number lexer is permissive where `JSON.parse` is strict, which only makes
the model accept some texts the builtin rejects — no claim exercises
those).  String escapes cover the single-character JSON escapes; `\u`
escapes are not modelled (no claim feeds them). -/

/-- A parsed JSON value. -/
inductive Json where
  | null
  | bool (b : Bool)
  | num (lexeme : String)
  | str (s : String)
  | arr (elems : List Json)
  | obj (fields : List (String × Json))

/-- The opening-brace character, written by code point to keep the source
free of literal braces. -/
def lbrace : Char := Char.ofNat 123

/-- The closing-brace character. -/
def rbrace : Char := Char.ofNat 125

/-- JSON insignificant whitespace. -/
def isJsonWs (c : Char) : Bool :=
  c = ' ' || c = '\n' || c = '\t' || c = '\r'

/-- Drop leading whitespace. -/
def skipWs : List Char → List Char
  | [] => []
  | c :: cs => if isJsonWs c then skipWs cs else c :: cs

/-- Decode one single-character JSON escape. -/
def decodeEscape (e : Char) : Option Char :=
  if e = '"' then some '"'
  else if e = '\\' then some '\\'
  else if e = '/' then some '/'
  else if e = 'n' then some '\n'
  else if e = 't' then some '\t'
  else if e = 'r' then some '\r'
  else none

/-- Parse the body of a string literal (the opening quote already
consumed), returning the decoded string and the remaining input. -/
def parseStringBody : List Char → Option (String × List Char)
  | [] => none
  | c :: cs =>
    if c = '"' then some ("", cs)
    else if c = '\\' then
      match cs with
      | [] => none
      | e :: cs' =>
        match decodeEscape e with
        | none => none
        | some d =>
          match parseStringBody cs' with
          | some (s, rest) => some (String.mk (d :: s.data), rest)
          | none => none
    else
      match parseStringBody cs with
      | some (s, rest) => some (String.mk (c :: s.data), rest)
      | none => none

/-- Characters that may make up a numeric lexeme. -/
def isNumChar (c : Char) : Bool :=
  c.isDigit || c = '-' || c = '+' || c = '.' || c = 'e' || c = 'E'

/-- Split off the longest prefix of numeric-lexeme characters. -/
def takeNum : List Char → List Char × List Char
  | [] => ([], [])
  | c :: cs =>
    if isNumChar c then
      let p := takeNum cs
      (c :: p.1, p.2)
    else ([], c :: cs)

mutual

/-- Parse one JSON value.  The fuel argument bounds recursion depth; the
top-level entry point supplies more fuel than any input of its length can
consume. -/
def parseValue : Nat → List Char → Option (Json × List Char)
  | 0, _ => none
  | fuel + 1, cs =>
    match skipWs cs with
    | [] => none
    | c :: rest =>
      if c = '"' then
        match parseStringBody rest with
        | some (s, r) => some (.str s, r)
        | none => none
      else if c = lbrace then
        match skipWs rest with
        | c2 :: r2 =>
          if c2 = rbrace then some (.obj [], r2)
          else
            match parseObjFields fuel (c2 :: r2) with
            | some (kvs, r3) => some (.obj kvs, r3)
            | none => none
        | [] => none
      else if c = '[' then
        match skipWs rest with
        | c2 :: r2 =>
          if c2 = ']' then some (.arr [], r2)
          else
            match parseArrElems fuel (c2 :: r2) with
            | some (xs, r3) => some (.arr xs, r3)
            | none => none
        | [] => none
      else if c = 't' then
        match rest with
        | 'r' :: 'u' :: 'e' :: r => some (.bool true, r)
        | _ => none
      else if c = 'f' then
        match rest with
        | 'a' :: 'l' :: 's' :: 'e' :: r => some (.bool false, r)
        | _ => none
      else if c = 'n' then
        match rest with
        | 'u' :: 'l' :: 'l' :: r => some (.null, r)
        | _ => none
      else if c = '-' || c.isDigit then
        match takeNum (c :: rest) with
        | (ds, r) => if ds.isEmpty then none else some (.num (String.mk ds), r)
      else none

/-- Parse the comma-separated members of a non-empty object, up to and
including the closing brace. -/
def parseObjFields : Nat → List Char → Option (List (String × Json) × List Char)
  | 0, _ => none
  | fuel + 1, cs =>
    match skipWs cs with
    | [] => none
    | c :: rest =>
      if c = '"' then
        match parseStringBody rest with
        | none => none
        | some (k, r1) =>
          match skipWs r1 with
          | [] => none
          | c2 :: r2 =>
            if c2 = ':' then
              match parseValue fuel r2 with
              | none => none
              | some (v, r3) =>
                match skipWs r3 with
                | [] => none
                | c3 :: r4 =>
                  if c3 = ',' then
                    match parseObjFields fuel r4 with
                    | some (kvs, r5) => some ((k, v) :: kvs, r5)
                    | none => none
                  else if c3 = rbrace then some ([(k, v)], r4)
                  else none
            else none
      else none

/-- Parse the comma-separated elements of a non-empty array, up to and
including the closing bracket. -/
def parseArrElems : Nat → List Char → Option (List Json × List Char)
  | 0, _ => none
  | fuel + 1, cs =>
    match parseValue fuel cs with
    | none => none
    | some (v, r1) =>
      match skipWs r1 with
      | [] => none
      | c2 :: r2 =>
        if c2 = ',' then
          match parseArrElems fuel r2 with
          | some (xs, r3) => some (v :: xs, r3)
          | none => none
        else if c2 = ']' then some ([v], r2)
        else none

end

/-- Model of the `JSON.parse` builtin: parse the whole text (allowing
trailing whitespace); any leftover input is a syntax error. -/
def jsonParse (s : String) : Option Json :=
  match parseValue (s.length + 1) s.data with
  | some (j, rest) =>
    match skipWs rest with
    | [] => some j
    | _ => none
  | none => none

/-- `result.text || "\x7b\x7d"`: the JavaScript `||` falls back to the
empty-object text when `.text` is `undefined` or the empty string (both
falsy). -/
def jsOrEmptyObj : Option String → String
  | none => "\x7b\x7d"
  | some s => if s = "" then "\x7b\x7d" else s

/-! ## The parsed extraction and sheet assembly -/

/-- The three collections named by the response schema, as the handlers
access them on the parsed object (`extraction.best_effort`,
`extraction.raw_data`, `extraction.structured_view`).  `none` is
JavaScript `undefined`: the key was absent from the parsed object (or the
parsed value had no such property). -/
structure ExtractionResult where
  best_effort : Option (List Table)
  raw_data : Option (List Table)
  structured_view : Option (List Table)
deriving DecidableEq, Repr

/-- JavaScript property access `j.k` on a parsed JSON value: on `null` a
`TypeError` is thrown; on an object the named field is returned (the
builtin keeps the last duplicate key); on every other value the property
is `undefined`. -/
def getProp : Json → String → Except String (Option Json)
  | .null, _ => .error "Cannot read properties of null"
  | .obj kvs, k => .ok (((kvs.filter fun p => p.1 == k).getLast?).map Prod.snd)
  | _, _ => .ok none

/-- Decode one cell: the response schema contracts cells to strings. -/
def decodeCell : Json → Option String
  | .str s => some s
  | _ => none

/-- Decode one row: an array of cells. -/
def decodeRow : Json → Option Row
  | .arr cells => cells.mapM decodeCell
  | _ => none

/-- Decode one table: an array of rows. -/
def decodeTable : Json → Option Table
  | .arr rows => rows.mapM decodeRow
  | _ => none

/-- Decode one collection: an array of tables. -/
def decodeTables : Json → Option (List Table)
  | .arr tables => tables.mapM decodeTable
  | _ => none

/-- What `addSheet` observes of one collection value.  An absent property
and the falsy values `null`, `false` and `""` are skipped by the
`!data` guard; an array is taken as the list of tables (decoded against
the contracted shape — a present value that does not fit the contracted
table shape makes `addSheet`'s `forEach` traversal throw a `TypeError`,
which the outer catch-all turns into a 500; numeric values, which the
response schema cannot produce, are approximated by that same error
path). -/
def decodeField : Option Json → Except String (Option (List Table))
  | none => .ok none
  | some .null => .ok none
  | some (.bool false) => .ok none
  | some (.str "") => .ok none
  | some j =>
    match decodeTables j with
    | some ts => .ok (some ts)
    | none => .error "is not a function"

/-- Read the three collections off the parsed reply, in the order the
handler touches them (`best_effort` at the first `addSheet` call,
`structured_view` at the second, `raw_data` at the third); the first
property access or shape failure aborts the whole `try` block. -/
def extractionOfJsonE (j : Json) : Except String ExtractionResult := do
  let b ← getProp j "best_effort"
  let tb ← decodeField b
  let s ← getProp j "structured_view"
  let ts ← decodeField s
  let r ← getProp j "raw_data"
  let tr ← decodeField r
  pure ⟨tb, tr, ts⟩

/-- `combinedRows`: concatenate the rows of all tables of one collection,
pushing one empty row before every table except the first
(`if (index > 0) combinedRows.push([])`). -/
def combinedRows (data : List Table) : List Row :=
  ((data.enum.map fun p => (if 0 < p.1 then ([[]] : List Row) else []) ++ p.2)).flatten

/-- `addSheet`: skip an absent or empty collection
(`if (!data || data.length === 0) return`), otherwise append one sheet
holding the combined rows (`aoa_to_sheet` + `book_append_sheet`). -/
def addSheet (wb : Workbook) (data : Option (List Table)) (sheetName : String) : Workbook :=
  match data with
  | none => wb
  | some d => if d.length = 0 then wb else wb ++ [(sheetName, combinedRows d)]

/-- The three `addSheet` calls, in source order. -/
def buildWorkbook (e : ExtractionResult) : Workbook :=
  addSheet
    (addSheet
      (addSheet [] e.best_effort "Mejor Resultado")
      e.structured_view "Vista Estructurada")
    e.raw_data "Datos Brutos"

/-! ## The two endpoint handlers -/

/-- `MAX_FILE_SIZE` in `src/api/index.ts`: the Vercel-constrained ceiling. -/
def MAX_FILE_SIZE : Nat := 4 * 1024 * 1024

/-- The 10MB ceiling configured in `src/server.ts`. -/
def SERVER_MAX_FILE_SIZE : Nat := 10 * 1024 * 1024

/-- An error raised by the `upload.single("pdf")` middleware. -/
inductive UploadErr where
  | limitFileSize
  | otherMulter (msg : String)
  | transport (msg : String)
deriving DecidableEq, Repr

/-- Upload-middleware errors other than the size limit, taken from the
request environment. -/
def uploadEnvErr (req : ConvertRequest) : Option UploadErr :=
  match req.otherMulterError with
  | some m => some (.otherMulter m)
  | none => req.transportError.map .transport

/-- The `multer` middleware with an in-memory store and a `fileSize`
limit, per its documented contract: a file larger than the configured
limit raises `MulterError` with code `LIMIT_FILE_SIZE`; otherwise any
environment-supplied middleware error is surfaced. -/
def uploadSinglePdf (limit : Nat) (req : ConvertRequest) : Option UploadErr :=
  match req.file with
  | some f => if limit < f.size then some .limitFileSize else uploadEnvErr req
  | none => uploadEnvErr req

/-- 413 body of the deployment-constrained variant. -/
def oversizeMsg : String :=
  "El archivo es demasiado grande. El límite es 4MB para el plan gratuito de Vercel."

/-- 400 body when no file arrived. -/
def noFileMsg : String := "No se ha recibido ningún archivo PDF."

/-- 500 body when the API key is missing. -/
def configMsg : String := "Configuración incompleta: Falta la clave de API de Gemini."

/-- 504 body when the AI call is aborted by the deadline. -/
def timeoutMsg : String := "La IA tardó demasiado en responder. Prueba con un PDF más pequeño."

/-- Fallback of `error.message || ...` in the catch-all of `api/index.ts`. -/
def internalDefaultMsg : String := "Error interno del servidor"

/-- Stand-in for the (always non-empty) `SyntaxError` message that
`JSON.parse` raises on malformed text and the catch-all forwards. -/
def parseFailMsg : String := "Unexpected token in JSON"

/-- 400 body of the development variant when no file arrived. -/
def serverNoFileMsg : String := "No file uploaded"

/-- Fallback of `error.message || ...` in the catch-all of `server.ts`. -/
def serverDefaultMsg : String := "Failed to convert PDF"

/-- The shared tail of both handlers, from a successful AI reply onwards:
`JSON.parse(result.text || ...)`, the three property reads and the three
`addSheet` calls (this code is textually identical in the two variants).
A parse or shape failure is rethrown to the catch-all with the given
default message. -/
def respondFromText (defaultMsg : String) (t : Option String) : Response :=
  match jsonParse (jsOrEmptyObj t) with
  | none => .json 500 parseFailMsg
  | some j =>
    match extractionOfJsonE j with
    | .error m => .json 500 (if m = "" then defaultMsg else m)
    | .ok e => .excel (buildWorkbook e)

/-- The deployment-constrained handler of `src/api/index.ts`.  Returns the
response together with the number of `generateContent` calls issued (the
code contains exactly one call site and no retry loop, so the count is 0
or 1).  The AI stage awaits the call's own settlement: the `AbortError`
branch of the inner catch maps an error whose `name` is `AbortError` to
504, every other rejection is rethrown to the catch-all as a 500; the
request's `exceedsDeadline` field appears nowhere below, because the
scheduled `controller.abort()` is connected to nothing the call
observes. -/
def apiConvert (req : ConvertRequest) : Response × Nat :=
  match uploadSinglePdf MAX_FILE_SIZE req with
  | some .limitFileSize => (.json 413 oversizeMsg, 0)
  | some (.otherMulter m) => (.json 400 ("Error de carga: " ++ m), 0)
  | some (.transport m) => (.json 500 ("Error interno: " ++ m), 0)
  | none =>
    match req.file with
    | none => (.json 400 noFileMsg, 0)
    | some _ =>
      if req.apiKeySet then
        match req.ai with
        | .failure name msg =>
          if name = "AbortError" then (.json 504 timeoutMsg, 1)
          else (.json 500 (if msg = "" then internalDefaultMsg else msg), 1)
        | .success t => (respondFromText internalDefaultMsg t, 1)
      else (.json 500 configMsg, 0)

/-- The development handler of `src/server.ts`.  It installs no callback
on `upload.single("pdf")`, so any upload-middleware error reaches the
framework's default error handler; it performs no API-key check, so the
AI call is issued regardless of the credential; it sets no deadline and
its catch-all does not inspect the error's name, so every rejection is
answered 500 with `error.message || ...`. -/
def serverConvert (req : ConvertRequest) : Response × Nat :=
  match uploadSinglePdf SERVER_MAX_FILE_SIZE req with
  | some _ => (.frameworkError 500, 0)
  | none =>
    match req.file with
    | none => (.json 400 serverNoFileMsg, 0)
    | some _ =>
      match req.ai with
      | .failure _ msg => (.json 500 (if msg = "" then serverDefaultMsg else msg), 1)
      | .success t => (respondFromText serverDefaultMsg t, 1)

/-- Whether one collection holds at least one table (so a sheet is
emitted for it). -/
def hasTables : Option (List Table) → Bool
  | some (_ :: _) => true
  | _ => false

/-- The error-status discipline of the spec: a JSON error body must carry
one of the four documented status codes; non-error responses are not
constrained. -/
def allowedErrStatus (r : Response) : Bool :=
  match r with
  | .json s _ => s == 400 || s == 413 || s == 500 || s == 504
  | _ => true

/-- A well-formed conversion request sent while the credential is unset:
the AI provider, if called with the empty key, rejects the call with an
authentication failure. -/
def noKeyReq : ConvertRequest :=
  ⟨some ⟨100⟩, none, none, false, .failure "ApiError" "upstream auth failure", false⟩

/-- A request carrying a file of 10MB + 1 bytes: it exceeds the ceiling of
both variants (4MB in `api/index.ts`, 10MB in `server.ts`).  The AI
outcome is irrelevant: the upload gate rejects the request first. -/
def oversizedReq : ConvertRequest :=
  ⟨some ⟨10485761⟩, none, none, true, .failure "ApiError" "never reached", false⟩

/-- The same request with its `exceedsDeadline` field replaced. -/
def withDeadlineExceeded (req : ConvertRequest) (b : Bool) : ConvertRequest :=
  ⟨req.file, req.otherMulterError, req.transportError, req.apiKeySet, req.ai, b⟩

/-- A well-formed request whose AI call outlives the 9-second budget (so
`controller.abort()` fires) and afterwards resolves normally with the
empty-object reply. -/
def overdueReq : ConvertRequest :=
  ⟨some ⟨2048⟩, none, none, true, .success (some "\x7b\x7d"), true⟩

/-! ## Helper lemmas about sheet assembly -/

theorem flatten_map_enumFrom_succ (ts : List Table) (n : Nat) :
    ((List.enumFrom (n + 1) ts).map fun p =>
        (if 0 < p.1 then ([[]] : List Row) else []) ++ p.2).flatten
      = (ts.map fun t => [] :: t).flatten := by
  induction ts generalizing n with
  | nil => rfl
  | cons t ts ih =>
    simp only [List.enumFrom, List.map, List.flatten]
    rw [if_pos (Nat.succ_pos n), ih]
    rfl

/-- The `forEach` loop of `addSheet` computes exactly the concatenation of
the tables with the one-blank-row separator interleaved. -/
theorem combinedRows_eq_intercalate (d : List Table) :
    combinedRows d = List.intercalate [[]] d := by
  cases d with
  | nil => rfl
  | cons t ts =>
    have h1 : combinedRows (t :: ts) = t ++ (ts.map fun t' => [] :: t').flatten := by
      simp only [combinedRows, List.enum]
      simp only [List.enumFrom, List.map, List.flatten]
      rw [if_neg (by decide : ¬ 0 < 0), flatten_map_enumFrom_succ]
      rfl
    rw [h1]
    clear h1
    induction ts generalizing t with
    | nil => simp [List.intercalate, List.intersperse]
    | cons t' ts' ih =>
      simp only [List.map, List.flatten]
      simp only [List.intercalate, List.intersperse] at ih ⊢
      simp only [List.flatten_cons]
      rw [← ih t']
      simp

theorem addSheet_nonempty (wb : Workbook) (n : String) (d : List Table) (hd : d ≠ []) :
    addSheet wb (some d) n = wb ++ [(n, combinedRows d)] := by
  simp only [addSheet]
  rw [if_neg (by simpa using hd)]

/-- The sheet names of the assembled workbook: one fixed name per
non-empty collection, in the fixed call order. -/
theorem workbook_names (e : ExtractionResult) :
    (buildWorkbook e).map Prod.fst
      = (if hasTables e.best_effort then ["Mejor Resultado"] else [])
        ++ (if hasTables e.structured_view then ["Vista Estructurada"] else [])
        ++ (if hasTables e.raw_data then ["Datos Brutos"] else []) := by
  obtain ⟨b, r, s⟩ := e
  rcases b with _ | (_ | ⟨tb, tsb⟩) <;> rcases r with _ | (_ | ⟨tr, tsr⟩) <;>
    rcases s with _ | (_ | ⟨ts, tss⟩) <;>
      simp [buildWorkbook, addSheet, hasTables]

/-- The assembled workbook in full: one sheet of combined rows per
non-empty collection, in the fixed call order. -/
theorem buildWorkbook_shape (e : ExtractionResult) :
    buildWorkbook e
      = (if hasTables e.best_effort then
            [("Mejor Resultado", combinedRows (e.best_effort.getD []))] else [])
        ++ (if hasTables e.structured_view then
            [("Vista Estructurada", combinedRows (e.structured_view.getD []))] else [])
        ++ (if hasTables e.raw_data then
            [("Datos Brutos", combinedRows (e.raw_data.getD []))] else []) := by
  obtain ⟨b, r, s⟩ := e
  rcases b with _ | (_ | ⟨tb, tsb⟩) <;> rcases r with _ | (_ | ⟨tr, tsr⟩) <;>
    rcases s with _ | (_ | ⟨ts, tss⟩) <;>
      simp [buildWorkbook, addSheet, hasTables]

/-! ## Helper lemmas about the request boundary -/

theorem respondFromText_status (dm : String) (t : Option String) :
    allowedErrStatus (respondFromText dm t) = true := by
  unfold respondFromText
  rcases hj : jsonParse (jsOrEmptyObj t) with _ | j
  · rfl
  · rcases he : extractionOfJsonE j with m | e
    · simp [he, allowedErrStatus]
    · simp [he, allowedErrStatus]

theorem respondFromText_not_framework (dm : String) (t : Option String) :
    isFrameworkResponse (respondFromText dm t) = false := by
  unfold respondFromText
  rcases hj : jsonParse (jsOrEmptyObj t) with _ | j
  · rfl
  · rcases he : extractionOfJsonE j with m | e
    · simp [he, isFrameworkResponse]
    · simp [he, isFrameworkResponse]

/-- Error discipline of the deployment-constrained handler: every JSON
error body carries one of the four documented statuses, no response comes
from the framework default handler, and at most one AI call is made. -/
theorem apiConvert_boundary (req : ConvertRequest) :
    allowedErrStatus (apiConvert req).1 = true
    ∧ isFrameworkResponse (apiConvert req).1 = false
    ∧ (apiConvert req).2 ≤ 1 := by
  unfold apiConvert
  rcases h : uploadSinglePdf MAX_FILE_SIZE req with _ | e
  · rcases hf : req.file with _ | f
    · exact ⟨rfl, rfl, by simp⟩
    · rcases hk : req.apiKeySet
      · simp [allowedErrStatus, isFrameworkResponse]
      · rcases hai : req.ai with ⟨name, msg⟩ | t
        · rcases eq_or_ne name "AbortError" with hn | hn <;>
            simp [hn, allowedErrStatus, isFrameworkResponse]
        · exact ⟨respondFromText_status _ _, respondFromText_not_framework _ _, by simp⟩
  · rcases e with _ | m | m <;> simp [allowedErrStatus, isFrameworkResponse]

/-- Error discipline of the development handler: JSON error bodies carry a
documented status, at most one AI call is made, and a framework-default
response can arise only out of an upload-middleware error. -/
theorem serverConvert_boundary (req : ConvertRequest) :
    allowedErrStatus (serverConvert req).1 = true
    ∧ (serverConvert req).2 ≤ 1
    ∧ (isFrameworkResponse (serverConvert req).1 = true →
        (uploadSinglePdf SERVER_MAX_FILE_SIZE req).isSome = true) := by
  unfold serverConvert
  rcases h : uploadSinglePdf SERVER_MAX_FILE_SIZE req with _ | e
  · rcases hf : req.file with _ | f
    · exact ⟨rfl, by simp, by intro hc; cases hc⟩
    · rcases hai : req.ai with ⟨name, msg⟩ | t
      · simp [allowedErrStatus, isFrameworkResponse]
      · refine ⟨respondFromText_status _ _, by simp, ?_⟩
        intro hc
        rw [show (respondFromText serverDefaultMsg t, 1).1
              = respondFromText serverDefaultMsg t from rfl] at hc
        rw [respondFromText_not_framework] at hc
        cases hc
  · simp [allowedErrStatus, isFrameworkResponse]

/-! ## The claims -/

/-- C1: the claim names the intended design but the code does not
implement it (code bug).  `src/api/index.ts` creates an `AbortController`
and schedules `controller.abort()` at 9 seconds (lines 77-78), but never
passes `controller.signal` to `generateContent`, whose `config` carries
only `responseMimeType` and `responseSchema`; so deadline expiry cancels
nothing and the handler keeps awaiting the call.  Formally: the response
and the call count are independent of whether the call exceeded the
deadline, and a concrete request whose call outlives the deadline and
then resolves normally is answered with the workbook at status 200 — not
the 504 timeout classification, which the deadline cannot reach (the
`AbortError` branch at line 138 would fire only on an error the SDK
itself names `AbortError`). -/
theorem C1_deadline_expiry_cancels_nothing (req : ConvertRequest) (b : Bool) :
    apiConvert (withDeadlineExceeded req b) = apiConvert req
    ∧ apiConvert overdueReq = (Response.excel [], 1)
    ∧ statusOf (apiConvert overdueReq).1 = 200 := by
  obtain ⟨file, om, te, key, ai, dl⟩ := req
  exact ⟨rfl, rfl, rfl⟩

/-- C2: once the AI reply parses and decodes to an ExtractionResult, the
request always succeeds with the assembled workbook — absent or empty
collections never fail it; a collection contributes a sheet exactly when
it holds at least one table, so each absent or empty collection simply
produces no sheet, and with all three absent (or all three empty) the
workbook is empty. -/
theorem C2_absent_or_empty_collections_never_fail (req : ConvertRequest) (f : UploadedFile)
    (t : Option String) (j : Json) (e : ExtractionResult)
    (hfile : req.file = some f) (hsize : f.size ≤ MAX_FILE_SIZE)
    (hmul : req.otherMulterError = none) (htr : req.transportError = none)
    (hkey : req.apiKeySet = true) (hai : req.ai = .success t)
    (hparse : jsonParse (jsOrEmptyObj t) = some j)
    (hex : extractionOfJsonE j = .ok e) :
    apiConvert req = (Response.excel (buildWorkbook e), 1)
    ∧ ("Mejor Resultado" ∈ (buildWorkbook e).map Prod.fst ↔ hasTables e.best_effort = true)
    ∧ ("Vista Estructurada" ∈ (buildWorkbook e).map Prod.fst
        ↔ hasTables e.structured_view = true)
    ∧ ("Datos Brutos" ∈ (buildWorkbook e).map Prod.fst ↔ hasTables e.raw_data = true)
    ∧ buildWorkbook ⟨none, none, none⟩ = []
    ∧ buildWorkbook ⟨some [], some [], some []⟩ = [] := by
  obtain ⟨file, om, te, key, ai, dl⟩ := req
  simp only at hfile hmul htr hkey hai
  subst hfile hmul htr hkey hai
  refine ⟨?_, ?_, ?_, ?_, rfl, rfl⟩
  · simp only [apiConvert, uploadSinglePdf, uploadEnvErr, Option.map_none']
    rw [if_neg (Nat.not_lt.mpr hsize)]
    simp [respondFromText, hparse, hex]
  all_goals
    rw [workbook_names e]
    rcases hb : hasTables e.best_effort <;> rcases hr : hasTables e.raw_data <;>
      rcases hs : hasTables e.structured_view <;> simp

/-- C2 witness: the reply text is the empty object, so all three
collections are absent; the request succeeds with an empty workbook. -/
theorem C2_witness :
    jsonParse (jsOrEmptyObj (some "\x7b\x7d")) = some (Json.obj [])
    ∧ extractionOfJsonE (Json.obj []) = .ok (⟨none, none, none⟩ : ExtractionResult)
    ∧ apiConvert ⟨some ⟨4096⟩, none, none, true, .success (some "\x7b\x7d"), false⟩
        = (Response.excel (buildWorkbook ⟨none, none, none⟩), 1)
    ∧ buildWorkbook (⟨none, none, none⟩ : ExtractionResult) = [] := by
  have h := C2_absent_or_empty_collections_never_fail
    ⟨some ⟨4096⟩, none, none, true, .success (some "\x7b\x7d"), false⟩ ⟨4096⟩
    (some "\x7b\x7d") (Json.obj []) ⟨none, none, none⟩ rfl (by norm_num [MAX_FILE_SIZE])
    rfl rfl rfl rfl rfl rfl
  exact ⟨rfl, rfl, h.1, h.2.2.2.2.1⟩

/-- C3 counterexample: the claim quantifies over every conversion request
(both variants are cited as its sources), but the development handler in
`src/server.ts` performs no credential check at all: with the key unset it
still issues the outbound AI call (count 1, not 0) and its failure
surfaces through the catch-all, not as the configuration message. -/
theorem C3_counterexample :
    (serverConvert noKeyReq).2 = 1
    ∧ (serverConvert noKeyReq).1 ≠ Response.json 500 configMsg := by
  refine ⟨rfl, ?_⟩
  have hr : (serverConvert noKeyReq).1 = Response.json 500 "upstream auth failure" := rfl
  rw [hr]
  intro h
  injection h with h1 h2
  exact absurd h2 (by decide)

/-- C3 as amended: in the deployment-constrained variant an unset key is
answered with the 500 configuration message and no AI call is attempted;
the development variant has no credential check, so there the AI call is
attempted (once) regardless of the credential. -/
theorem C3_amended_config_check_only_in_api_variant (req : ConvertRequest) (f : UploadedFile)
    (hfile : req.file = some f)
    (hmul : req.otherMulterError = none) (htr : req.transportError = none)
    (hkey : req.apiKeySet = false) :
    (f.size ≤ MAX_FILE_SIZE → apiConvert req = (Response.json 500 configMsg, 0))
    ∧ (f.size ≤ SERVER_MAX_FILE_SIZE → (serverConvert req).2 = 1) := by
  obtain ⟨file, om, te, key, ai, dl⟩ := req
  simp only at hfile hmul htr hkey
  subst hfile hmul htr hkey
  constructor
  · intro hsize
    simp only [apiConvert, uploadSinglePdf, uploadEnvErr, Option.map_none']
    rw [if_neg (Nat.not_lt.mpr hsize)]
    simp
  · intro hsize
    simp only [serverConvert, uploadSinglePdf, uploadEnvErr, Option.map_none']
    rw [if_neg (Nat.not_lt.mpr hsize)]
    cases ai <;> simp

/-- C3 witness: a concrete small upload with the credential unset. -/
theorem C3_witness :
    apiConvert ⟨some ⟨512⟩, none, none, false, .failure "ApiError" "x", false⟩ = (Response.json 500 configMsg, 0)
    ∧ (serverConvert ⟨some ⟨512⟩, none, none, false, .failure "ApiError" "x", false⟩).2 = 1 := by
  have h := C3_amended_config_check_only_in_api_variant
    ⟨some ⟨512⟩, none, none, false, .failure "ApiError" "x", false⟩ ⟨512⟩ rfl rfl rfl rfl
  exact ⟨h.1 (by norm_num [MAX_FILE_SIZE]), h.2 (by norm_num [SERVER_MAX_FILE_SIZE])⟩

/-- C4 counterexample: an upload of 10MB + 1 bytes exceeds the 10MB
ceiling configured in `src/server.ts`, but that handler installs no
callback on the upload middleware, so the `LIMIT_FILE_SIZE` error reaches
the framework's default error handler: the status is 500, not the
oversize classification 413. -/
theorem C4_counterexample :
    (serverConvert oversizedReq).1 = Response.frameworkError 500
    ∧ statusOf (serverConvert oversizedReq).1 ≠ 413 := ⟨rfl, by decide⟩

/-- C4 as amended: an oversize upload is answered with 413 and the
oversize message in the deployment-constrained variant, and with the
framework's default 500 response in the development variant; in both
variants no AI call is attempted (count 0). -/
theorem C4_amended_oversize_behavior_per_variant (req : ConvertRequest) (f : UploadedFile)
    (hfile : req.file = some f) :
    (MAX_FILE_SIZE < f.size → apiConvert req = (Response.json 413 oversizeMsg, 0))
    ∧ (SERVER_MAX_FILE_SIZE < f.size → serverConvert req = (Response.frameworkError 500, 0)) := by
  obtain ⟨file, om, te, key, ai, dl⟩ := req
  simp only at hfile
  subst hfile
  constructor
  · intro hsize
    simp only [apiConvert, uploadSinglePdf]
    rw [if_pos hsize]
  · intro hsize
    simp only [serverConvert, uploadSinglePdf]
    rw [if_pos hsize]

/-- C4 witness: the concrete 10MB + 1 upload, in both variants. -/
theorem C4_witness :
    apiConvert ⟨some ⟨10485761⟩, none, none, true, .failure "ApiError" "never", false⟩
      = (Response.json 413 oversizeMsg, 0)
    ∧ serverConvert ⟨some ⟨10485761⟩, none, none, true, .failure "ApiError" "never", false⟩
      = (Response.frameworkError 500, 0) := by
  have h := C4_amended_oversize_behavior_per_variant
    ⟨some ⟨10485761⟩, none, none, true, .failure "ApiError" "never", false⟩ ⟨10485761⟩ rfl
  exact ⟨h.1 (by norm_num [MAX_FILE_SIZE]), h.2 (by norm_num [SERVER_MAX_FILE_SIZE])⟩

/-- C5: for a non-empty collection, the assembled sheet is exactly the
rows of its tables in original order with one blank row interleaved
between successive tables and none before the first —
`List.intercalate [[]]` of the tables; in particular two tables are
separated by exactly one blank row. -/
theorem C5_sheet_is_tables_with_single_blank_separators
    (wb : Workbook) (sheetName : String) (d : List Table) (hd : d ≠ []) :
    addSheet wb (some d) sheetName = wb ++ [(sheetName, List.intercalate [[]] d)] := by
  rw [addSheet_nonempty wb sheetName d hd, combinedRows_eq_intercalate]

/-- C5 witness: two one-row tables produce one sheet with exactly one
blank row between them and none before the first. -/
theorem C5_witness :
    ([[["a"]], [["b"]]] : List Table) ≠ []
    ∧ addSheet [] (some [[["a"]], [["b"]]]) "Mejor Resultado"
        = [("Mejor Resultado", List.intercalate [[]] [[["a"]], [["b"]]])]
    ∧ List.intercalate [[]] ([[["a"]], [["b"]]] : List Table) = [["a"], [], ["b"]] :=
  ⟨by simp,
   C5_sheet_is_tables_with_single_blank_separators [] "Mejor Resultado"
     [[["a"]], [["b"]]] (by simp),
   by decide⟩

/-- C6: the assembled workbook is the concatenation of the best-effort
sheet, then the structured-view sheet, then the raw-data sheet, each
present exactly when its collection holds at least one table — the fixed
order of the three `addSheet` calls — and therefore holds between 0 and 3
sheets. -/
theorem C6_fixed_sheet_order_zero_to_three (e : ExtractionResult) :
    buildWorkbook e
      = (if hasTables e.best_effort then
            [("Mejor Resultado", combinedRows (e.best_effort.getD []))] else [])
        ++ (if hasTables e.structured_view then
            [("Vista Estructurada", combinedRows (e.structured_view.getD []))] else [])
        ++ (if hasTables e.raw_data then
            [("Datos Brutos", combinedRows (e.raw_data.getD []))] else [])
    ∧ (buildWorkbook e).length ≤ 3 := by
  refine ⟨buildWorkbook_shape e, ?_⟩
  rw [buildWorkbook_shape e]
  rcases hasTables e.best_effort <;> rcases hasTables e.structured_view <;>
    rcases hasTables e.raw_data <;> simp

/-- C7: a missing or empty AI reply body is replaced by the empty-object
text, which parses to the empty JSON object — all three collections
absent — and the pipeline continues to assembly in both variants: the
response is the (empty) workbook, not a parse failure. -/
theorem C7_missing_or_empty_body_is_empty_object (req : ConvertRequest) (f : UploadedFile)
    (t : Option String)
    (hfile : req.file = some f) (hsize : f.size ≤ MAX_FILE_SIZE)
    (hmul : req.otherMulterError = none) (htr : req.transportError = none)
    (hkey : req.apiKeySet = true) (hai : req.ai = .success t)
    (htext : t = none ∨ t = some "") :
    apiConvert req = (Response.excel [], 1)
    ∧ serverConvert req = (Response.excel [], 1)
    ∧ jsonParse (jsOrEmptyObj t) = some (Json.obj [])
    ∧ extractionOfJsonE (Json.obj []) = .ok ⟨none, none, none⟩ := by
  obtain ⟨file, om, te, key, ai, dl⟩ := req
  simp only at hfile hmul htr hkey hai
  subst hfile hmul htr hkey hai
  have hobj : jsOrEmptyObj t = "\x7b\x7d" := by
    rcases htext with h | h <;> subst h <;> rfl
  have hsz2 : f.size ≤ SERVER_MAX_FILE_SIZE :=
    le_trans hsize (by norm_num [MAX_FILE_SIZE, SERVER_MAX_FILE_SIZE])
  refine ⟨?_, ?_, ?_, rfl⟩
  · simp only [apiConvert, uploadSinglePdf, uploadEnvErr, Option.map_none']
    rw [if_neg (Nat.not_lt.mpr hsize)]
    simp [respondFromText, hobj]
    rfl
  · simp only [serverConvert, uploadSinglePdf, uploadEnvErr, Option.map_none']
    rw [if_neg (Nat.not_lt.mpr hsz2)]
    simp [respondFromText, hobj]
    rfl
  · rw [hobj]; rfl

/-- C7 witness: a reply with no body text at all. -/
theorem C7_witness :
    apiConvert ⟨some ⟨2048⟩, none, none, true, .success none, false⟩ = (Response.excel [], 1)
    ∧ serverConvert ⟨some ⟨2048⟩, none, none, true, .success none, false⟩ = (Response.excel [], 1)
    ∧ jsonParse (jsOrEmptyObj none) = some (Json.obj [])
    ∧ extractionOfJsonE (Json.obj []) = .ok ⟨none, none, none⟩ :=
  C7_missing_or_empty_body_is_empty_object ⟨some ⟨2048⟩, none, none, true, .success none, false⟩
    ⟨2048⟩ none rfl (by norm_num [MAX_FILE_SIZE]) rfl rfl rfl rfl (Or.inl rfl)

/-- C8: a multipart request carrying no file in the `pdf` field is
answered 400 with the no-file message in both variants, and no further
pipeline step runs (in particular, zero AI calls). -/
theorem C8_missing_file_400_no_pipeline (req : ConvertRequest)
    (hfile : req.file = none)
    (hmul : req.otherMulterError = none) (htr : req.transportError = none) :
    apiConvert req = (Response.json 400 noFileMsg, 0)
    ∧ serverConvert req = (Response.json 400 serverNoFileMsg, 0) := by
  obtain ⟨file, om, te, key, ai, dl⟩ := req
  simp only at hfile hmul htr
  subst hfile hmul htr
  constructor <;> rfl

/-- C8 witness: a concrete request without a file. -/
theorem C8_witness :
    apiConvert ⟨none, none, none, true, .failure "ApiError" "never", false⟩ = (Response.json 400 noFileMsg, 0)
    ∧ serverConvert ⟨none, none, none, true, .failure "ApiError" "never", false⟩
      = (Response.json 400 serverNoFileMsg, 0) :=
  C8_missing_file_400_no_pipeline ⟨none, none, none, true, .failure "ApiError" "never", false⟩ rfl rfl rfl

/-- C9 counterexample: an oversize upload in the development variant is a
failing conversion request that is not answered with a JSON error body —
the multer error reaches the framework's default handler, which answers
500 with a non-JSON body. -/
theorem C9_counterexample :
    (serverConvert oversizedReq).1 = Response.frameworkError 500
    ∧ isJsonResponse (serverConvert oversizedReq).1 = false := ⟨rfl, rfl⟩

/-- C9 as amended: in the deployment-constrained variant every failure is
answered with exactly one JSON error body whose status lies in
{400, 413, 500, 504} and nothing is retried (at most one AI call); the
development variant satisfies the same except that upload-middleware
errors fall through to the framework default handler (one non-JSON
500-class response) — a framework response arises only out of an
upload-middleware error.  Both handlers are total Lean functions, so no
request crashes the (modelled) process. -/
theorem C9_amended_error_responses_per_variant (req : ConvertRequest) :
    allowedErrStatus (apiConvert req).1 = true
    ∧ isFrameworkResponse (apiConvert req).1 = false
    ∧ (apiConvert req).2 ≤ 1
    ∧ allowedErrStatus (serverConvert req).1 = true
    ∧ (serverConvert req).2 ≤ 1
    ∧ (isFrameworkResponse (serverConvert req).1 = true →
        (uploadSinglePdf SERVER_MAX_FILE_SIZE req).isSome = true) := by
  obtain ⟨h1, h2, h3⟩ := apiConvert_boundary req
  obtain ⟨h4, h5, h6⟩ := serverConvert_boundary req
  exact ⟨h1, h2, h3, h4, h5, h6⟩

/-- C9 witness: the oversize request in the development variant does
produce a framework response, and indeed its upload stage errored. -/
theorem C9_witness :
    isFrameworkResponse (serverConvert ⟨some ⟨10485761⟩, none, none, true, .failure "ApiError" "n", false⟩).1
      = true
    ∧ (uploadSinglePdf SERVER_MAX_FILE_SIZE
        ⟨some ⟨10485761⟩, none, none, true, .failure "ApiError" "n", false⟩).isSome = true := by
  have h := C9_amended_error_responses_per_variant
    ⟨some ⟨10485761⟩, none, none, true, .failure "ApiError" "n", false⟩
  exact ⟨rfl, h.2.2.2.2.2 rfl⟩

/-- C10: the sheet names of every assembled workbook are drawn from the
three fixed constants — "Mejor Resultado" for best_effort, "Vista
Estructurada" for structured_view, "Datos Brutos" for raw_data — each
appearing exactly when its collection is non-empty; the names depend on
nothing else (neither the uploaded document nor the cell contents occur
in the name computation). -/
theorem C10_sheet_names_are_fixed_constants (e : ExtractionResult) :
    (buildWorkbook e).map Prod.fst
      = (if hasTables e.best_effort then ["Mejor Resultado"] else [])
        ++ (if hasTables e.structured_view then ["Vista Estructurada"] else [])
        ++ (if hasTables e.raw_data then ["Datos Brutos"] else []) :=
  workbook_names e

end PDF2Excel
